import Mathlib

/-!
Verification of the ASTRA backend core (session-scoped in-memory store plus
publish/subscribe broadcaster) against its natural-language specification.

The Python source is shallowly embedded:
* Python `dict`s (insertion-ordered, unique string keys) become association
  lists `AList α := List (String × α)` with `alist_get` / `alist_set` /
  `alist_del` mirroring `d.get(k)`, `d[k] = v`, `del d[k]`.
* `datetime` values become `Nat` (all stored timestamps are normalized to a
  single timezone-aware representation in the source, so a totally ordered
  carrier is faithful for comparison and stamping).
* Python float values (`value`, `duration_seconds`) become `Rat`; they are
  only stored and copied, never computed with, in the verified core.
* `await ws.send_text(...)` either succeeds or raises; the broadcaster wraps
  each send in `try/except`, so the whole pass is modelled by a total function
  parameterized by `sendOk : Nat → Bool` telling which connection's send
  succeeds.  Totality of the Lean function models "delivery failure never
  propagates to the publish caller".
* FastAPI `HTTPException` becomes `Except String`; mutating routes return the
  (possibly unchanged) store together with the `Except` result.
* `list.sort(key=..)` is Python's stable sort; it is embedded as a stable
  insertion sort (`sortAsc` / `sortDesc`), which computes the same list.
-/

namespace Astra

/-- Association list standing for a Python `dict` with string keys
(insertion-ordered, unique keys). -/
abbrev AList (α : Type) := List (String × α)

/-- `d.get(k)`: first (= only) binding of `k`. -/
def alist_get {α : Type} : AList α → String → Option α
  | [], _ => none
  | (k2, v) :: t, k => if k2 = k then some v else alist_get t k

/-- `d[k] = v`: overwrite in place if present, else append at the end. -/
def alist_set {α : Type} : AList α → String → α → AList α
  | [], k, v => [(k, v)]
  | (k2, v2) :: t, k, v =>
      if k2 = k then (k2, v) :: t else (k2, v2) :: alist_set t k v

/-- `del d[k]`: drop the binding of `k` (keys are unique). -/
def alist_del {α : Type} : AList α → String → AList α
  | [], _ => []
  | (k2, v2) :: t, k => if k2 = k then t else (k2, v2) :: alist_del t k

/-! ## Subscription registry and broadcaster (`app/ws_manager.py`) -/

/-- `ws_connections : { session_id: [websocket, ...] }`; websockets are
modelled by `Nat` identifiers. -/
abbrev Registry := List (String × List Nat)

/-- `list.remove(x)`: remove the first occurrence of `x`. -/
def pyRemove : List Nat → Nat → List Nat
  | [], _ => []
  | a :: t, x => if a = x then t else a :: pyRemove t x

/-- The pruning loop of `broadcast`:
`for ws in dead: if ws in conns: conns.remove(ws)`. -/
def removeDead : List Nat → List Nat → List Nat
  | conns, [] => conns
  | conns, d :: rest =>
      removeDead (if d ∈ conns then pyRemove conns d else conns) rest

/-- `broadcast(session_id, event, data)` from `app/ws_manager.py`, restricted
to its effect on the registry and on which connections receive the message.
`sendOk c` tells whether `await ws.send_text(message)` succeeds on connection
`c` (an exception on a connection is caught, logged, and the connection is
collected into `dead_connections`).  Returns the new registry and the list of
connections whose send succeeded, in delivery order.  The event name and
payload do not influence registry behaviour and are omitted. -/
def broadcast (reg : Registry) (sendOk : Nat → Bool) (sid : String) :
    Registry × List Nat :=
  match alist_get reg sid with
  | none => (reg, [])
  | some conns =>
      let delivered := conns.filter (fun c => sendOk c)
      let dead := conns.filter (fun c => !(sendOk c))
      let remaining := removeDead conns dead
      let reg2 :=
        if remaining.isEmpty then alist_del (alist_set reg sid remaining) sid
        else alist_set reg sid remaining
      (reg2, delivered)

/-! ## Sessions (`app/routes/sessions.py`) -/

inductive SessionStatus where
  | active
  | ended
  deriving DecidableEq, Repr

structure Session where
  id : String
  name : String
  description : Option String
  status : SessionStatus
  started_at : Nat
  ended_at : Option Nat
  deriving DecidableEq, Repr

/-- `create_session`: fresh id supplied by the caller (uuid in the source),
status `active`, `started_at = now`, `ended_at = None`. -/
def create_session (sid : String) (name : String) (description : Option String)
    (now : Nat) : Session :=
  { id := sid, name := name, description := description,
    status := SessionStatus.active, started_at := now, ended_at := none }

/-- `SessionUpdate` schema: every field optional (absent = `None`). -/
structure SessionUpdate where
  name : Option String
  description : Option String
  status : Option SessionStatus
  deriving DecidableEq, Repr

/-- Body of `update_session` once the session is found: apply each supplied
field; setting status to `ended` stamps `ended_at = utcnow()`.  Note the
source never clears `ended_at`. -/
def update_session_apply (s : Session) (u : SessionUpdate) (now : Nat) :
    Session :=
  let s1 := match u.name with
    | some n => { s with name := n }
    | none => s
  let s2 := match u.description with
    | some d => { s1 with description := some d }
    | none => s1
  match u.status with
  | some st =>
      let s3 := { s2 with status := st }
      if st = SessionStatus.ended then { s3 with ended_at := some now } else s3
  | none => s2

/-- Session states reachable through the public API: a `create_session`
followed by any sequence of `update_session` calls. -/
inductive ReachableSession : Session → Prop where
  | create (sid name : String) (description : Option String) (now : Nat) :
      ReachableSession (create_session sid name description now)
  | step (s : Session) (u : SessionUpdate) (now : Nat) :
      ReachableSession s → ReachableSession (update_session_apply s u now)

/-! ## Stable sorting (Python `list.sort` with a key) -/

/-- Stable ascending insertion: the inserted element (earlier in the original
list) goes before the first element with a key `≥` its own, matching Python's
stable `sort(key=...)`. -/
def insertAsc {α : Type} (key : α → Nat) (x : α) : List α → List α
  | [] => [x]
  | y :: ys => if key y < key x then y :: insertAsc key x ys else x :: y :: ys

/-- Python's stable `l.sort(key=...)` (ascending). -/
def sortAsc {α : Type} (key : α → Nat) : List α → List α
  | [] => []
  | x :: xs => insertAsc key x (sortAsc key xs)

/-- Stable descending insertion: the inserted element (earlier in the original
list) skips past strictly greater keys and goes before the first element with
a key `≤` its own, matching Python's stable `sort(key=..., reverse=True)`. -/
def insertDesc {α : Type} (key : α → Nat) (x : α) : List α → List α
  | [] => [x]
  | y :: ys => if key x < key y then y :: insertDesc key x ys else x :: y :: ys

/-- Python's stable `l.sort(key=..., reverse=True)` (descending; ties keep
their original relative order). -/
def sortDesc {α : Type} (key : α → Nat) : List α → List α
  | [] => []
  | x :: xs => insertDesc key x (sortDesc key xs)

/-! ## Notes (`app/routes/notes.py`) -/

inductive NoteType where
  | observation
  | command
  | system
  deriving DecidableEq, Repr

/-- Telemetry snapshot: arbitrary key/value mapping, only stored and copied. -/
abbrev Snapshot := List (String × Rat)

structure Note where
  id : String
  session_id : String
  timestamp : Nat
  speaker : Option String
  content : String
  type : NoteType
  tags : List String
  telemetry_snapshot : Option Snapshot
  created_at : Nat
  updated_at : Nat
  deriving DecidableEq, Repr

/-- `get_notes_by_session` from `app/database.py`:
`[n for n in notes_db.values() if n["session_id"] == session_id]`. -/
def get_notes_by_session (notes_db : AList Note) (sid : String) : List Note :=
  (notes_db.map Prod.snd).filter (fun n => n.session_id = sid)

/-- `NoteUpdate` schema: every field optional (absent = `None`). -/
structure NoteUpdate where
  content : Option String
  speaker : Option String
  type : Option NoteType
  tags : Option (List String)
  deriving DecidableEq, Repr

/-- `if speaker: notes = [n for n in notes if n["speaker"] == speaker]`.
Python truthiness: `if speaker:` is False both for `None` and for the empty
string, so a supplied empty-string speaker applies no filtering. -/
def notes_filter_speaker (speaker : Option String) (l : List Note) :
    List Note :=
  match speaker with
  | some s => if s = "" then l else l.filter (fun n => n.speaker = some s)
  | none => l

/-- `if type: notes = [n for n in notes if n["type"] == type]`.  Every
`NoteType` value is a non-empty string in the source, hence always truthy. -/
def notes_filter_type (ty : Option NoteType) (l : List Note) : List Note :=
  match ty with
  | some t => l.filter (fun n => n.type = t)
  | none => l

/-- `if from_time: notes = [n for n in notes if _to_aware(n["timestamp"]) >= from_time]`.
A `datetime` is always truthy. -/
def notes_filter_from (from_time : Option Nat) (l : List Note) : List Note :=
  match from_time with
  | some ft => l.filter (fun n => ft ≤ n.timestamp)
  | none => l

/-- `if to_time: notes = [n for n in notes if _to_aware(n["timestamp"]) <= to_time]`. -/
def notes_filter_to (to_time : Option Nat) (l : List Note) : List Note :=
  match to_time with
  | some tt => l.filter (fun n => n.timestamp ≤ tt)
  | none => l

/-- `list_notes`: session check, the four sequential truthiness-guarded
filters above, then a stable ascending sort by event timestamp. -/
def list_notes (sessions_db : AList Session) (notes_db : AList Note)
    (sid : String) (speaker : Option String) (ty : Option NoteType)
    (from_time : Option Nat) (to_time : Option Nat) :
    Except String (List Note) :=
  match alist_get sessions_db sid with
  | none => Except.error s!"Session {sid} not found"
  | some _ =>
      Except.ok (sortAsc (fun n => n.timestamp)
        (notes_filter_to to_time
          (notes_filter_from from_time
            (notes_filter_type ty
              (notes_filter_speaker speaker
                (get_notes_by_session notes_db sid))))))

/-- `get_note`: session check, then lookup plus ownership check. -/
def get_note (sessions_db : AList Session) (notes_db : AList Note)
    (sid : String) (note_id : String) : Except String Note :=
  match alist_get sessions_db sid with
  | none => Except.error s!"Session {sid} not found"
  | some _ =>
      match alist_get notes_db note_id with
      | none => Except.error s!"Note {note_id} not found in session {sid}"
      | some n =>
          if n.session_id = sid then Except.ok n
          else Except.error s!"Note {note_id} not found in session {sid}"

/-- Field-application core of `update_note`: each `if update.x is not None:`
guard applies only the supplied fields; `updated_at` is always refreshed. -/
def note_apply_update (n : Note) (u : NoteUpdate) (now : Nat) : Note :=
  let n1 := match u.content with
    | some c => { n with content := c }
    | none => n
  let n2 := match u.speaker with
    | some sp => { n1 with speaker := some sp }
    | none => n1
  let n3 := match u.type with
    | some t => { n2 with type := t }
    | none => n2
  let n4 := match u.tags with
    | some tg => { n3 with tags := tg }
    | none => n3
  { n4 with updated_at := now }

/-- `update_note`: session check, lookup plus ownership check, then apply only
the supplied fields and always refresh `updated_at`.  Returns the new
`notes_db` together with the response. -/
def update_note (sessions_db : AList Session) (notes_db : AList Note)
    (sid : String) (note_id : String) (u : NoteUpdate) (now : Nat) :
    AList Note × Except String Note :=
  match alist_get sessions_db sid with
  | none => (notes_db, Except.error s!"Session {sid} not found")
  | some _ =>
      match alist_get notes_db note_id with
      | none =>
          (notes_db, Except.error s!"Note {note_id} not found in session {sid}")
      | some n =>
          if n.session_id = sid then
            let n5 := note_apply_update n u now
            (alist_set notes_db note_id n5, Except.ok n5)
          else
            (notes_db, Except.error s!"Note {note_id} not found in session {sid}")

/-- `delete_note`: session check, lookup plus ownership check, then
`del notes_db[note_id]`. -/
def delete_note (sessions_db : AList Session) (notes_db : AList Note)
    (sid : String) (note_id : String) : AList Note × Except String String :=
  match alist_get sessions_db sid with
  | none => (notes_db, Except.error s!"Session {sid} not found")
  | some _ =>
      match alist_get notes_db note_id with
      | none =>
          (notes_db, Except.error s!"Note {note_id} not found in session {sid}")
      | some n =>
          if n.session_id = sid then
            (alist_del notes_db note_id, Except.ok s!"Note {note_id} deleted")
          else
            (notes_db, Except.error s!"Note {note_id} not found in session {sid}")

/-! ## Telemetry (`app/routes/telemetry.py`) -/

structure Telemetry where
  id : String
  session_id : String
  timestamp : Nat
  channel : String
  value : Rat
  unit : Option String
  deriving DecidableEq, Repr

/-- `get_telemetry_by_session` from `app/database.py`: `telemetry_db` is a
plain list in insertion order. -/
def get_telemetry_by_session (telemetry_db : List Telemetry) (sid : String) :
    List Telemetry :=
  telemetry_db.filter (fun t => t.session_id = sid)

/-- `results = [t for t in get_telemetry_by_session(sid) if t["channel"] == channel]`
in `get_latest_telemetry`: the session's samples on a channel, in insertion
order. -/
def channel_samples (telemetry_db : List Telemetry) (sid : String)
    (channel : String) : List Telemetry :=
  (get_telemetry_by_session telemetry_db sid).filter
    (fun t => t.channel = channel)

/-- `get_latest_telemetry`: session check; filter the session's samples by
channel (in insertion order); 404 when empty; otherwise stable-sort
descending by timestamp (`reverse=True` keeps ties in insertion order) and
return the first element.  (The source raises before sorting when `results`
is empty; filtering, sorting, and head-taking commute with that check, and
`sortDesc` of a nonempty list is nonempty.) -/
def get_latest_telemetry (sessions_db : AList Session)
    (telemetry_db : List Telemetry) (sid : String) (channel : String) :
    Except String Telemetry :=
  match alist_get sessions_db sid with
  | none => Except.error s!"Session {sid} not found"
  | some _ =>
      match sortDesc (fun t => t.timestamp)
          (channel_samples telemetry_db sid channel) with
      | [] => Except.error s!"No telemetry found for channel: {channel}"
      | t :: _ => Except.ok t

/-- First element of a list attaining the maximum key: later elements replace
the current best only when strictly greater.  This is what taking the head of
a stable descending sort computes (proved below). -/
def firstMax {α : Type} (key : α → Nat) : List α → Option α
  | [] => none
  | x :: xs =>
      match firstMax key xs with
      | none => some x
      | some y => if key x < key y then some y else some x

/-! ## STT tasks (`app/routes/stt.py`) -/

structure STTTask where
  id : String
  session_id : String
  audio_chunk_id : String
  duration_seconds : Option Rat
  status : String
  transcript : Option String
  error : Option String
  created_at : Nat
  updated_at : Nat
  deriving DecidableEq, Repr

/-- `STTTaskCreate` schema. -/
structure STTTaskCreate where
  audio_chunk_id : String
  duration_seconds : Option Rat
  deriving DecidableEq, Repr

/-- `STTTaskUpdate` schema: `status` is a required plain string; `transcript`
and `error` default to `None` when absent. -/
structure STTTaskUpdate where
  status : String
  transcript : Option String
  error : Option String
  deriving DecidableEq, Repr

/-- `create_stt_task`: session check, then store a fresh task with status
`"pending"` and null transcript and error.  The task id is supplied by the
caller (uuid in the source). -/
def create_stt_task (sessions_db : AList Session) (stt_tasks_db : AList STTTask)
    (sid : String) (task_id : String) (c : STTTaskCreate) (now : Nat) :
    AList STTTask × Except String STTTask :=
  match alist_get sessions_db sid with
  | none => (stt_tasks_db, Except.error s!"Session {sid} not found")
  | some _ =>
      let new_task : STTTask :=
        { id := task_id, session_id := sid,
          audio_chunk_id := c.audio_chunk_id,
          duration_seconds := c.duration_seconds,
          status := "pending", transcript := none, error := none,
          created_at := now, updated_at := now }
      (alist_set stt_tasks_db task_id new_task, Except.ok new_task)

/-- `get_stt_task`: session check, then lookup plus ownership check. -/
def get_stt_task (sessions_db : AList Session) (stt_tasks_db : AList STTTask)
    (sid : String) (tid : String) : Except String STTTask :=
  match alist_get sessions_db sid with
  | none => Except.error s!"Session {sid} not found"
  | some _ =>
      match alist_get stt_tasks_db tid with
      | none => Except.error s!"STT task {tid} not found"
      | some t =>
          if t.session_id = sid then Except.ok t
          else Except.error s!"STT task {tid} not found"

/-- `update_stt_task`: session check, lookup plus ownership check, then
unconditionally overwrite `status`, `transcript`, and `error` with the
supplied values (absent optional fields arrive as `None`) and refresh
`updated_at`.  There is no terminal-state guard. -/
def update_stt_task (sessions_db : AList Session) (stt_tasks_db : AList STTTask)
    (sid : String) (tid : String) (u : STTTaskUpdate) (now : Nat) :
    AList STTTask × Except String STTTask :=
  match alist_get sessions_db sid with
  | none => (stt_tasks_db, Except.error s!"Session {sid} not found")
  | some _ =>
      match alist_get stt_tasks_db tid with
      | none => (stt_tasks_db, Except.error s!"STT task {tid} not found")
      | some t =>
          if t.session_id = sid then
            let t2 := { t with status := u.status, transcript := u.transcript,
                               error := u.error, updated_at := now }
            (alist_set stt_tasks_db tid t2, Except.ok t2)
          else (stt_tasks_db, Except.error s!"STT task {tid} not found")

/-! ## Session channel endpoint (`app/routes/websocket.py`) -/

/-- Outcome of the connect phase of `websocket_endpoint`. -/
inductive ConnectResult where
  | rejected (code : Nat) (reason : String)
  | accepted
  deriving DecidableEq, Repr

/-- The connect phase of `websocket_endpoint`: a missing session is rejected
with `websocket.close(code=4004, ...)` before `accept`, and nothing is
registered; otherwise the connection is accepted and appended to the
session's connection list (creating the entry if needed). -/
def ws_connect (sessions_db : AList Session) (reg : Registry) (sid : String)
    (ws : Nat) : ConnectResult × Registry :=
  match alist_get sessions_db sid with
  | none => (ConnectResult.rejected 4004 s!"Session {sid} not found", reg)
  | some _ =>
      let conns := match alist_get reg sid with
        | none => []
        | some cs => cs
      (ConnectResult.accepted, alist_set reg sid (conns ++ [ws]))

/-- `isErr e` holds exactly when the route raised `HTTPException`. -/
def isErr {α : Type} : Except String α → Bool
  | Except.error _ => true
  | Except.ok _ => false

/-- Python dicts have unique keys; association lists representing them
satisfy this well-formedness invariant. -/
def keysNodup {α : Type} (d : AList α) : Prop := (d.map Prod.fst).Nodup

/-! ## Concrete fixtures used by witnesses and counterexamples -/

def demoSession : Session := create_session "sess_1" "Rover Test" none 0

def demoSessions : AList Session := [("sess_1", demoSession)]

/-- `demoSession` after `PATCH status=ended` at time 1. -/
def endedSession : Session :=
  update_session_apply demoSession
    { name := none, description := none, status := some SessionStatus.ended } 1

/-- `endedSession` after a further `PATCH status=active` at time 2. -/
def reactivatedSession : Session :=
  update_session_apply endedSession
    { name := none, description := none, status := some SessionStatus.active } 2

/-- Earlier-inserted "voltage" sample at timestamp 5. -/
def demoSampleA : Telemetry :=
  { id := "tel_a", session_id := "sess_1", timestamp := 5, channel := "voltage",
    value := 1, unit := some "V" }

/-- Later-inserted "voltage" sample, tying `demoSampleA` exactly on timestamp. -/
def demoSampleB : Telemetry :=
  { id := "tel_b", session_id := "sess_1", timestamp := 5, channel := "voltage",
    value := 2, unit := some "V" }

def demoNote : Note :=
  { id := "note_a", session_id := "sess_1", timestamp := 3,
    speaker := some "alice", content := "motor start",
    type := NoteType.observation, tags := ["motor"],
    telemetry_snapshot := none, created_at := 4, updated_at := 4 }

def demoNotes : AList Note := [("note_a", demoNote)]

/-- STT task store after registering task `stt_a` at time 10. -/
def sttStep1 : AList STTTask :=
  (create_stt_task demoSessions [] "sess_1" "stt_a"
    { audio_chunk_id := "chunk_1", duration_seconds := none } 10).1

/-- ... after updating `stt_a` to `done` with a transcript at time 11. -/
def sttStep2 : AList STTTask :=
  (update_stt_task demoSessions sttStep1 "sess_1" "stt_a"
    { status := "done", transcript := some "hello world", error := none } 11).1

/-- ... after a further update of the already-terminal `stt_a` at time 12. -/
def sttStep3 : AList STTTask :=
  (update_stt_task demoSessions sttStep2 "sess_1" "stt_a"
    { status := "failed", transcript := none, error := some "oops" } 12).1

/-- The stored value of task `stt_a` in `sttStep2`. -/
def doneTask : STTTask :=
  { id := "stt_a", session_id := "sess_1", audio_chunk_id := "chunk_1",
    duration_seconds := none, status := "done",
    transcript := some "hello world", error := none,
    created_at := 10, updated_at := 11 }

/-- A note owned by a different session (`sess_2`). -/
def foreignNote : Note :=
  { id := "note_b", session_id := "sess_2", timestamp := 6,
    speaker := none, content := "other session note",
    type := NoteType.system, tags := [],
    telemetry_snapshot := none, created_at := 7, updated_at := 7 }

def foreignNotes : AList Note := [("note_b", foreignNote)]

/-- A task owned by a different session (`sess_2`). -/
def foreignTask : STTTask :=
  { id := "stt_b", session_id := "sess_2", audio_chunk_id := "chunk_9",
    duration_seconds := none, status := "pending",
    transcript := none, error := none, created_at := 8, updated_at := 8 }

def foreignTasks : AList STTTask := [("stt_b", foreignTask)]

/-! ## Association-list lemmas -/

lemma alist_get_set_self {α : Type} (d : AList α) (k : String) (v : α) :
    alist_get (alist_set d k v) k = some v := by
  induction d with
  | nil => simp [alist_set, alist_get]
  | cons kv t ih =>
      obtain ⟨k2, v2⟩ := kv
      by_cases h : k2 = k
      · simp [alist_set, alist_get, h]
      · simp [alist_set, alist_get, h, ih]

lemma alist_get_set_ne {α : Type} (d : AList α) (k k2 : String) (v : α)
    (h : k ≠ k2) : alist_get (alist_set d k v) k2 = alist_get d k2 := by
  induction d with
  | nil => simp [alist_set, alist_get, h]
  | cons kv t ih =>
      obtain ⟨k3, v3⟩ := kv
      by_cases h3 : k3 = k
      · subst h3
        simp [alist_set, alist_get, h]
      · simp [alist_set, alist_get, h3, ih]

lemma alist_get_eq_none_of_not_mem {α : Type} (d : AList α) (k : String)
    (h : k ∉ d.map Prod.fst) : alist_get d k = none := by
  induction d with
  | nil => rfl
  | cons kv t ih =>
      obtain ⟨k2, v2⟩ := kv
      simp only [List.map_cons, List.mem_cons] at h
      push_neg at h
      rw [alist_get, if_neg (fun hh : k2 = k => h.1 hh.symm)]
      exact ih h.2

lemma alist_mem_keys_set {α : Type} (d : AList α) (k k3 : String) (v : α) :
    k3 ∈ (alist_set d k v).map Prod.fst ↔ k3 = k ∨ k3 ∈ d.map Prod.fst := by
  induction d with
  | nil => simp [alist_set]
  | cons kv t ih =>
      obtain ⟨k2, v2⟩ := kv
      by_cases h : k2 = k
      · have hset : alist_set ((k2, v2) :: t) k v = (k2, v) :: t := by
          rw [alist_set, if_pos h]
        rw [hset]
        simp only [List.map_cons, List.mem_cons]
        subst h
        tauto
      · have hset : alist_set ((k2, v2) :: t) k v = (k2, v2) :: alist_set t k v := by
          rw [alist_set, if_neg h]
        rw [hset]
        simp only [List.map_cons, List.mem_cons, ih]
        tauto

lemma keysNodup_set {α : Type} (d : AList α) (k : String) (v : α)
    (h : keysNodup d) : keysNodup (alist_set d k v) := by
  induction d with
  | nil => simp [keysNodup, alist_set]
  | cons kv t ih =>
      obtain ⟨k2, v2⟩ := kv
      rw [keysNodup, List.map_cons, List.nodup_cons] at h
      by_cases hk : k2 = k
      · have hset : alist_set ((k2, v2) :: t) k v = (k2, v) :: t := by
          rw [alist_set, if_pos hk]
        rw [keysNodup, hset, List.map_cons, List.nodup_cons]
        exact ⟨h.1, h.2⟩
      · have hset : alist_set ((k2, v2) :: t) k v = (k2, v2) :: alist_set t k v := by
          rw [alist_set, if_neg hk]
        rw [keysNodup, hset, List.map_cons, List.nodup_cons]
        refine ⟨?_, ih h.2⟩
        rw [alist_mem_keys_set]
        rintro (rfl | hmem)
        · exact hk rfl
        · exact h.1 hmem

lemma alist_get_del_self {α : Type} (d : AList α) (k : String)
    (h : keysNodup d) : alist_get (alist_del d k) k = none := by
  induction d with
  | nil => rfl
  | cons kv t ih =>
      obtain ⟨k2, v2⟩ := kv
      rw [keysNodup, List.map_cons, List.nodup_cons] at h
      by_cases hk : k2 = k
      · rw [alist_del, if_pos hk]
        exact alist_get_eq_none_of_not_mem t k (hk ▸ h.1)
      · rw [alist_del, if_neg hk, alist_get, if_neg hk]
        exact ih h.2

/-! ## Pruning lemmas -/

lemma removeDead_cons_not_mem (x : Nat) (acc dead : List Nat)
    (h : ∀ d ∈ dead, d ≠ x) :
    removeDead (x :: acc) dead = x :: removeDead acc dead := by
  induction dead generalizing acc with
  | nil => rfl
  | cons d rest ih =>
      have hdx : d ≠ x := h d (List.mem_cons_self d rest)
      have hrest : ∀ e ∈ rest, e ≠ x := fun e he => h e (List.mem_cons_of_mem d he)
      rw [removeDead, removeDead]
      have hpy : pyRemove (x :: acc) d = x :: pyRemove acc d := by
        rw [pyRemove, if_neg (Ne.symm hdx)]
      by_cases hd : d ∈ acc
      · rw [if_pos (List.mem_cons_of_mem x hd), if_pos hd, hpy]
        exact ih (pyRemove acc d) hrest
      · have : d ∉ x :: acc := by
          simp only [List.mem_cons]
          rintro (rfl | hc)
          · exact hdx rfl
          · exact hd hc
        rw [if_neg this, if_neg hd]
        exact ih acc hrest

lemma removeDead_filter (p : Nat → Bool) (conns : List Nat) :
    removeDead conns (conns.filter p) = conns.filter (fun x => !(p x)) := by
  induction conns with
  | nil => rfl
  | cons x t ih =>
      by_cases hp : p x
      · rw [List.filter_cons_of_pos hp, removeDead,
          if_pos (List.mem_cons_self x t)]
        rw [pyRemove, if_pos rfl]
        rw [List.filter_cons_of_neg (by simp [hp]), ih]
      · rw [List.filter_cons_of_neg (by simp [hp])]
        have hne : ∀ d ∈ t.filter p, d ≠ x := by
          intro d hd
          have hpd : p d := (List.mem_filter.mp hd).2
          intro hdx
          subst hdx
          exact hp hpd
        rw [removeDead_cons_not_mem x t (t.filter p) hne, ih,
          List.filter_cons_of_pos (by simp [hp])]

/-! ## Sorting lemmas -/

lemma insertDesc_head {α : Type} (key : α → Nat) (x : α) (l : List α) :
    (insertDesc key x l).head? =
      some (match l.head? with
            | none => x
            | some y => if key x < key y then y else x) := by
  cases l with
  | nil => rfl
  | cons y ys =>
      by_cases h : key x < key y
      · simp [insertDesc, h]
      · simp [insertDesc, h]

lemma sortDesc_head {α : Type} (key : α → Nat) (l : List α) :
    (sortDesc key l).head? = firstMax key l := by
  induction l with
  | nil => rfl
  | cons x xs ih =>
      rw [sortDesc, insertDesc_head, ih]
      cases hfm : firstMax key xs with
      | none => simp [firstMax, hfm]
      | some y =>
          by_cases h : key x < key y <;> simp [firstMax, hfm, h]

lemma firstMax_eq_none {α : Type} (key : α → Nat) (l : List α)
    (h : firstMax key l = none) : l = [] := by
  cases l with
  | nil => rfl
  | cons x xs =>
      cases hfm : firstMax key xs with
      | none =>
          simp only [firstMax, hfm] at h
          simp at h
      | some y =>
          simp only [firstMax, hfm] at h
          split at h <;> cases h

lemma firstMax_spec {α : Type} (key : α → Nat) (l : List α) (t : α)
    (h : firstMax key l = some t) :
    t ∈ l ∧ (∀ u ∈ l, key u ≤ key t) ∧
      ∃ l1 l2, l = l1 ++ t :: l2 ∧ ∀ u ∈ l1, key u < key t := by
  induction l generalizing t with
  | nil => cases h
  | cons x xs ih =>
      cases hfm : firstMax key xs with
      | none =>
          simp only [firstMax, hfm] at h
          injection h with h2
          have hxs : xs = [] := firstMax_eq_none key xs hfm
          subst hxs
          subst h2
          exact ⟨List.mem_singleton_self _, by simp, [], [], by simp, by simp⟩
      | some y =>
          simp only [firstMax, hfm] at h
          obtain ⟨hymem, hymax, l1, l2, hsplit, hl1⟩ := ih y hfm
          by_cases hlt : key x < key y
          · rw [if_pos hlt] at h
            injection h with h2
            subst h2
            refine ⟨List.mem_cons_of_mem x hymem, ?_, x :: l1, l2,
              by rw [hsplit]; rfl, ?_⟩
            · intro u hu
              rcases List.mem_cons.mp hu with rfl | hu2
              · exact Nat.le_of_lt hlt
              · exact hymax u hu2
            · intro u hu
              rcases List.mem_cons.mp hu with rfl | hu2
              · exact hlt
              · exact hl1 u hu2
          · rw [if_neg hlt] at h
            injection h with h2
            subst h2
            have hyx : key y ≤ key x := Nat.le_of_not_lt hlt
            refine ⟨List.mem_cons_self x xs, ?_, [], xs, by simp, by simp⟩
            intro u hu
            rcases List.mem_cons.mp hu with rfl | hu2
            · exact Nat.le_refl _
            · exact Nat.le_trans (hymax u hu2) hyx

lemma mem_insertAsc {α : Type} (key : α → Nat) (x a : α) (l : List α) :
    a ∈ insertAsc key x l ↔ a = x ∨ a ∈ l := by
  induction l with
  | nil => simp [insertAsc]
  | cons y ys ih =>
      by_cases h : key y < key x
      · rw [insertAsc, if_pos h]
        simp only [List.mem_cons, ih]
        tauto
      · rw [insertAsc, if_neg h]
        simp only [List.mem_cons]

lemma mem_sortAsc {α : Type} (key : α → Nat) (a : α) (l : List α) :
    a ∈ sortAsc key l ↔ a ∈ l := by
  induction l with
  | nil => simp [sortAsc]
  | cons x xs ih =>
      rw [sortAsc, mem_insertAsc]
      simp only [List.mem_cons, ih]

lemma pairwise_insertAsc {α : Type} (key : α → Nat) (x : α) (l : List α)
    (h : l.Pairwise (fun a b => key a ≤ key b)) :
    (insertAsc key x l).Pairwise (fun a b => key a ≤ key b) := by
  induction l with
  | nil => simp [insertAsc]
  | cons y ys ih =>
      rw [List.pairwise_cons] at h
      by_cases hlt : key y < key x
      · rw [insertAsc, if_pos hlt, List.pairwise_cons]
        refine ⟨?_, ih h.2⟩
        intro a ha
        rcases (mem_insertAsc key x a ys).mp ha with rfl | ha2
        · exact Nat.le_of_lt hlt
        · exact h.1 a ha2
      · rw [insertAsc, if_neg hlt, List.pairwise_cons]
        refine ⟨?_, List.pairwise_cons.mpr h⟩
        intro a ha
        rcases List.mem_cons.mp ha with rfl | ha2
        · exact Nat.le_of_not_lt hlt
        · exact Nat.le_trans (Nat.le_of_not_lt hlt) (h.1 a ha2)

lemma pairwise_sortAsc {α : Type} (key : α → Nat) (l : List α) :
    (sortAsc key l).Pairwise (fun a b => key a ≤ key b) := by
  induction l with
  | nil => simp [sortAsc]
  | cons x xs ih => exact pairwise_insertAsc key x _ ih

/-! ## Session-update lemmas -/

/-- Every connection that receives a message during a `broadcast` pass was
registered for the session when the pass started. -/
lemma broadcast_delivered_subset (reg : Registry) (sendOk : Nat → Bool)
    (sid : String) (c : Nat) (h : c ∈ (broadcast reg sendOk sid).2) :
    ∃ conns, alist_get reg sid = some conns ∧ c ∈ conns := by
  cases hg : alist_get reg sid with
  | none =>
      simp only [broadcast, hg] at h
      exact absurd h (List.not_mem_nil c)
  | some conns =>
      simp only [broadcast, hg] at h
      exact ⟨conns, rfl, (List.mem_filter.mp h).1⟩

lemma update_session_apply_status (s : Session) (u : SessionUpdate)
    (now : Nat) :
    (update_session_apply s u now).status = u.status.getD s.status := by
  obtain ⟨un, ud, ust⟩ := u
  rcases un with _ | n <;> rcases ud with _ | d <;> rcases ust with _ | st <;>
    simp only [update_session_apply, Option.getD] <;>
    first
      | rfl
      | (by_cases hst : st = SessionStatus.ended <;> simp [hst])

lemma update_session_apply_ended_at (s : Session) (u : SessionUpdate)
    (now : Nat) :
    (update_session_apply s u now).ended_at =
      (if u.status = some SessionStatus.ended then some now else s.ended_at) := by
  obtain ⟨un, ud, ust⟩ := u
  rcases ust with _ | st
  · rcases un with _ | n <;> rcases ud with _ | d <;> simp [update_session_apply]
  · rcases un with _ | n <;> rcases ud with _ | d <;>
      by_cases hst : st = SessionStatus.ended <;>
      simp [update_session_apply, hst]

/-! ## Note-filter membership lemmas -/

lemma mem_notes_filter_speaker (speaker : Option String) (l : List Note)
    (n : Note) :
    n ∈ notes_filter_speaker speaker l ↔
      (n ∈ l ∧ ∀ s, speaker = some s → s ≠ "" → n.speaker = some s) := by
  rcases speaker with _ | s
  · simp [notes_filter_speaker]
  · by_cases hse : s = ""
    · subst hse
      simp [notes_filter_speaker]
    · simp [notes_filter_speaker, hse, List.mem_filter]

lemma mem_notes_filter_type (ty : Option NoteType) (l : List Note)
    (n : Note) :
    n ∈ notes_filter_type ty l ↔
      (n ∈ l ∧ ∀ t, ty = some t → n.type = t) := by
  rcases ty with _ | t
  · simp [notes_filter_type]
  · simp [notes_filter_type, List.mem_filter]

lemma mem_notes_filter_from (from_time : Option Nat) (l : List Note)
    (n : Note) :
    n ∈ notes_filter_from from_time l ↔
      (n ∈ l ∧ ∀ ft, from_time = some ft → ft ≤ n.timestamp) := by
  rcases from_time with _ | ft
  · simp [notes_filter_from]
  · simp [notes_filter_from, List.mem_filter]

lemma mem_notes_filter_to (to_time : Option Nat) (l : List Note) (n : Note) :
    n ∈ notes_filter_to to_time l ↔
      (n ∈ l ∧ ∀ tt, to_time = some tt → n.timestamp ≤ tt) := by
  rcases to_time with _ | tt
  · simp [notes_filter_to]
  · simp [notes_filter_to, List.mem_filter]

/-- Field-by-field description of `note_apply_update`. -/
lemma note_apply_update_fields (n : Note) (u : NoteUpdate) (now : Nat) :
    (note_apply_update n u now).id = n.id ∧
    (note_apply_update n u now).session_id = n.session_id ∧
    (note_apply_update n u now).timestamp = n.timestamp ∧
    (note_apply_update n u now).telemetry_snapshot = n.telemetry_snapshot ∧
    (note_apply_update n u now).created_at = n.created_at ∧
    (note_apply_update n u now).updated_at = now ∧
    (note_apply_update n u now).content
      = (match u.content with | some c => c | none => n.content) ∧
    (note_apply_update n u now).speaker
      = (match u.speaker with | some sp => some sp | none => n.speaker) ∧
    (note_apply_update n u now).type
      = (match u.type with | some t => t | none => n.type) ∧
    (note_apply_update n u now).tags
      = (match u.tags with | some tg => tg | none => n.tags) := by
  obtain ⟨uc, usp, ut, utg⟩ := u
  rcases uc with _ | c <;> rcases usp with _ | sp <;>
    rcases ut with _ | t <;> rcases utg with _ | tg <;>
    exact ⟨rfl, rfl, rfl, rfl, rfl, rfl, rfl, rfl, rfl, rfl⟩

/-! ## Claim C8 -/

/-- C8: for every session with zero live subscribers (no entry in the
subscription registry), `broadcast` is a no-op: it returns without error and
leaves the registry completely unchanged (and delivers to nobody). -/
theorem broadcast_no_subscribers_noop (reg : Registry) (sendOk : Nat → Bool)
    (sid : String) (h : alist_get reg sid = none) :
    broadcast reg sendOk sid = (reg, []) := by
  simp only [broadcast, h]

/-- Witness for C8 at a concrete registry without the session. -/
theorem broadcast_no_subscribers_noop_witness :
    broadcast [("sess_2", [7])] (fun _ => true) "sess_1"
      = ([("sess_2", [7])], []) :=
  broadcast_no_subscribers_noop [("sess_2", [7])] (fun _ => true) "sess_1"
    (by decide)

/-! ## Claim C1 -/

/-- C1: during a `broadcast` pass a delivery failure on one connection does
not abort delivery to the remaining connections (every connection whose send
succeeds receives the message), every connection that failed during the pass
is absent from the registry when the call returns, the session's registry
entry is dropped when pruning emptied it, and a subsequent `broadcast` never
delivers to a previously failed connection.  (Non-propagation to the caller
is modelled by `broadcast` being a total function.) -/
theorem broadcast_failed_connections_pruned (reg : Registry)
    (sendOk : Nat → Bool) (sid : String) (conns : List Nat)
    (hnd : keysNodup reg) (hreg : alist_get reg sid = some conns) :
    (∀ c ∈ conns, sendOk c = true → c ∈ (broadcast reg sendOk sid).2) ∧
    (∀ c ∈ conns, sendOk c = false →
      ∀ conns2, alist_get (broadcast reg sendOk sid).1 sid = some conns2 →
        c ∉ conns2) ∧
    (conns.filter (fun c => sendOk c) = [] →
      alist_get (broadcast reg sendOk sid).1 sid = none) ∧
    (∀ c ∈ conns, sendOk c = false → ∀ sendOk2 : Nat → Bool,
      c ∉ (broadcast (broadcast reg sendOk sid).1 sendOk2 sid).2) := by
  have hrem : removeDead conns (conns.filter (fun c => !(sendOk c)))
      = conns.filter (fun c => sendOk c) := by
    rw [removeDead_filter]
    apply List.filter_congr
    intro x _
    simp
  have hres2 : (broadcast reg sendOk sid).2
      = conns.filter (fun c => sendOk c) := by
    simp only [broadcast, hreg]
  have hres1 : (broadcast reg sendOk sid).1 =
      (if (conns.filter (fun c => sendOk c)).isEmpty then
        alist_del (alist_set reg sid (conns.filter (fun c => sendOk c))) sid
      else alist_set reg sid (conns.filter (fun c => sendOk c))) := by
    simp only [broadcast, hreg, hrem]
  have hlook : alist_get (broadcast reg sendOk sid).1 sid =
      (if (conns.filter (fun c => sendOk c)).isEmpty then none
       else some (conns.filter (fun c => sendOk c))) := by
    rw [hres1]
    by_cases he : (conns.filter (fun c => sendOk c)).isEmpty
    · rw [if_pos he, if_pos he]
      exact alist_get_del_self _ sid (keysNodup_set reg sid _ hnd)
    · rw [if_neg he, if_neg he, alist_get_set_self]
  have habsent : ∀ c ∈ conns, sendOk c = false →
      ∀ conns2, alist_get (broadcast reg sendOk sid).1 sid = some conns2 →
        c ∉ conns2 := by
    intro c hc hfail conns2 hc2
    rw [hlook] at hc2
    by_cases he : (conns.filter (fun c => sendOk c)).isEmpty
    · rw [if_pos he] at hc2
      exact absurd hc2 (by simp)
    · rw [if_neg he] at hc2
      injection hc2 with hc2
      subst hc2
      intro hmem
      have hok := (List.mem_filter.mp hmem).2
      rw [hfail] at hok
      exact Bool.false_ne_true hok
  refine ⟨?_, habsent, ?_, ?_⟩
  · intro c hc hok
    rw [hres2]
    exact List.mem_filter.mpr ⟨hc, hok⟩
  · intro hnil
    rw [hlook, hnil]
    simp
  · intro c hc hfail sendOk2 hmem
    obtain ⟨conns2, hg2, hcmem⟩ :=
      broadcast_delivered_subset (broadcast reg sendOk sid).1 sendOk2 sid c hmem
    exact habsent c hc hfail conns2 hg2 hcmem

/-- Witness for C1: three subscribers, connection 2's send fails; connection 3
(later in the pass) still receives the message. -/
theorem broadcast_failed_connections_pruned_witness :
    3 ∈ (broadcast [("sess_1", [1, 2, 3])] (fun c => c != 2) "sess_1").2 :=
  (broadcast_failed_connections_pruned [("sess_1", [1, 2, 3])]
      (fun c => c != 2) "sess_1" [1, 2, 3] (by simp [keysNodup]) (by decide)).1
    3 (by decide) (by decide)

/-! ## Claim C2 -/

/-- C2 counterexample: ending a session and then setting its status back to
`active` leaves `ended_at` non-null while the status is not `ended`, so the
claimed equivalence fails on a reachable session state. -/
theorem session_ended_iff_counterexample :
    ReachableSession reactivatedSession ∧
    ¬(reactivatedSession.ended_at ≠ none ↔
      reactivatedSession.status = SessionStatus.ended) := by
  constructor
  · exact ReachableSession.step _ _ 2
      (ReachableSession.step _ _ 1
        (ReachableSession.create "sess_1" "Rover Test" none 0))
  · decide

/-- C2 amended: for every reachable session, if its status is `ended` then
`ended_at` is non-null (the forward implication of the claimed equivalence),
and `ended_at`, once set, is never cleared by any further `update_session`;
the reverse implication fails because setting status back to `active` leaves
`ended_at` in place. -/
theorem session_ended_at_invariant (s : Session) (h : ReachableSession s) :
    (s.status = SessionStatus.ended → s.ended_at ≠ none) ∧
    (∀ u now, s.ended_at ≠ none →
      (update_session_apply s u now).ended_at ≠ none) := by
  constructor
  · induction h with
    | create sid name description now =>
        intro hst
        simp [create_session] at hst
    | step s u now hs ih =>
        intro hst
        rw [update_session_apply_status] at hst
        rw [update_session_apply_ended_at]
        cases hu : u.status with
        | none =>
            rw [hu] at hst
            simp only [Option.getD] at hst
            rw [if_neg (by simp)]
            exact ih hst
        | some st =>
            rw [hu] at hst
            simp only [Option.getD] at hst
            subst hst
            rw [if_pos rfl]
            simp
  · intro u now hne
    rw [update_session_apply_ended_at]
    by_cases hu : u.status = some SessionStatus.ended
    · rw [if_pos hu]
      simp
    · rw [if_neg hu]
      exact hne

/-- Witness for C2 amended at a concrete reachable ended session. -/
theorem session_ended_at_invariant_witness :
    endedSession.ended_at ≠ none :=
  (session_ended_at_invariant endedSession
      (ReachableSession.step _ _ 1
        (ReachableSession.create "sess_1" "Rover Test" none 0))).1
    (by decide)

/-! ## Claim C9 -/

/-- C9: a connection attempt against a session id absent from the record
store is rejected immediately with the application-specific close code 4004
(distinguishable from the ordinary-closure code 1000) and no subscription is
created: the registry is returned unchanged. -/
theorem ws_connect_missing_session_rejects (sessions_db : AList Session)
    (reg : Registry) (sid : String) (ws : Nat)
    (h : alist_get sessions_db sid = none) :
    ws_connect sessions_db reg sid ws
      = (ConnectResult.rejected 4004 s!"Session {sid} not found", reg) ∧
    (4004 : Nat) ≠ 1000 := by
  constructor
  · simp only [ws_connect, h]
  · decide

/-- Witness for C9 at a concrete store and registry. -/
theorem ws_connect_missing_session_rejects_witness :
    ws_connect demoSessions [("sess_1", [1])] "sess_9" 2
      = (ConnectResult.rejected 4004 "Session sess_9 not found",
         [("sess_1", [1])]) ∧
    (4004 : Nat) ≠ 1000 :=
  ws_connect_missing_session_rejects demoSessions [("sess_1", [1])] "sess_9" 2
    (by decide)

/-! ## Claim C3 -/

/-- C3 counterexample: two "voltage" samples tie exactly on the maximum
timestamp; `get_latest_telemetry` returns the earliest-inserted one
(`demoSampleA`), not the most recently inserted one (`demoSampleB`), because
Python's stable sort with `reverse=True` keeps ties in insertion order. -/
theorem latest_telemetry_tie_counterexample :
    get_latest_telemetry demoSessions [demoSampleA, demoSampleB] "sess_1"
        "voltage" = Except.ok demoSampleA ∧
    demoSampleA.timestamp = demoSampleB.timestamp ∧
    demoSampleA ≠ demoSampleB := by
  refine ⟨rfl, rfl, ?_⟩
  decide

/-- C3 amended: with no sample on the channel, `get_latest_telemetry` returns
not_found; otherwise it returns the sample with the maximum timestamp among
the session's samples on the channel, with exact timestamp ties broken by the
EARLIEST insertion (everything inserted before the returned sample has a
strictly smaller timestamp), not the latest. -/
theorem latest_telemetry_characterization (sessions_db : AList Session)
    (telemetry_db : List Telemetry) (sid channel : String) (sess : Session)
    (hs : alist_get sessions_db sid = some sess) :
    (channel_samples telemetry_db sid channel = [] →
      get_latest_telemetry sessions_db telemetry_db sid channel
        = Except.error s!"No telemetry found for channel: {channel}") ∧
    (channel_samples telemetry_db sid channel ≠ [] →
      ∃ t, get_latest_telemetry sessions_db telemetry_db sid channel
          = Except.ok t ∧
        t ∈ channel_samples telemetry_db sid channel ∧
        (∀ u ∈ channel_samples telemetry_db sid channel,
          u.timestamp ≤ t.timestamp) ∧
        ∃ l1 l2, channel_samples telemetry_db sid channel = l1 ++ t :: l2 ∧
          ∀ u ∈ l1, u.timestamp < t.timestamp) := by
  constructor
  · intro hempty
    simp only [get_latest_telemetry, hs, hempty, sortDesc]
  · intro hne
    obtain ⟨t, ht⟩ : ∃ t, firstMax (fun s => s.timestamp)
        (channel_samples telemetry_db sid channel) = some t := by
      cases hfm : firstMax (fun s => s.timestamp)
          (channel_samples telemetry_db sid channel) with
      | none => exact absurd (firstMax_eq_none _ _ hfm) hne
      | some t => exact ⟨t, rfl⟩
    have hhead := sortDesc_head (fun s => s.timestamp)
      (channel_samples telemetry_db sid channel)
    rw [ht] at hhead
    obtain ⟨hmem, hmax, hsplit⟩ := firstMax_spec _ _ t ht
    refine ⟨t, ?_, hmem, hmax, hsplit⟩
    cases hsd : sortDesc (fun s => s.timestamp)
        (channel_samples telemetry_db sid channel) with
    | nil =>
        rw [hsd] at hhead
        cases hhead
    | cons a rest =>
        rw [hsd] at hhead
        injection hhead with h2
        subst h2
        simp only [get_latest_telemetry, hs, hsd]

/-- Witness for C3 amended: no sample exists on channel "current". -/
theorem latest_telemetry_characterization_witness :
    get_latest_telemetry demoSessions [demoSampleA, demoSampleB] "sess_1"
      "current" = Except.error "No telemetry found for channel: current" :=
  (latest_telemetry_characterization demoSessions [demoSampleA, demoSampleB]
      "sess_1" "current" demoSession (by decide)).1 (by decide)

/-! ## Claim C4 -/

/-- C4 counterexample: task `stt_a` reaches the terminal state `done` (with a
transcript), yet a further `update_stt_task` call changes its status to
`failed` — the transition to a terminal state is not "exactly once". -/
theorem stt_terminal_transition_counterexample :
    alist_get sttStep2 "stt_a" = some doneTask ∧
    doneTask.status = "done" ∧
    alist_get sttStep3 "stt_a"
      = some { id := "stt_a", session_id := "sess_1",
               audio_chunk_id := "chunk_1", duration_seconds := none,
               status := "failed", transcript := none, error := some "oops",
               created_at := 10, updated_at := 12 } ∧
    ("failed" : String) ≠ "done" := by
  refine ⟨?_, rfl, ?_, ?_⟩ <;> decide

/-- C4 amended: every task is created in `pending` with null transcript and
null error; but `update_stt_task` sets the status to the supplied value
unconditionally on every call, so an update arriving after a terminal state
still changes the status — the source has no terminal-state guard. -/
theorem stt_create_pending_update_unguarded (sessions_db : AList Session)
    (tasks tasks2 : AList STTTask) (sid tid : String) (c : STTTaskCreate)
    (u : STTTaskUpdate) (now now2 : Nat) (sess : Session) (t0 : STTTask)
    (hs : alist_get sessions_db sid = some sess)
    (ht : alist_get tasks2 tid = some t0) (hown : t0.session_id = sid) :
    (create_stt_task sessions_db tasks sid tid c now).2 = Except.ok
      { id := tid, session_id := sid, audio_chunk_id := c.audio_chunk_id,
        duration_seconds := c.duration_seconds, status := "pending",
        transcript := none, error := none, created_at := now,
        updated_at := now } ∧
    (∀ t2, (update_stt_task sessions_db tasks2 sid tid u now2).2
        = Except.ok t2 → t2.status = u.status) := by
  constructor
  · simp only [create_stt_task, hs]
  · intro t2 h2
    simp only [update_stt_task, hs, ht, if_pos hown] at h2
    injection h2 with h2
    subst h2
    rfl

/-- Witness for C4 amended: concrete creation of a pending task, with the
terminal `done` task of `sttStep2` as the task being updated again. -/
theorem stt_create_pending_update_unguarded_witness :
    (create_stt_task demoSessions [] "sess_1" "stt_a"
        { audio_chunk_id := "chunk_1", duration_seconds := none } 10).2
      = Except.ok { id := "stt_a", session_id := "sess_1",
                    audio_chunk_id := "chunk_1", duration_seconds := none,
                    status := "pending", transcript := none, error := none,
                    created_at := 10, updated_at := 10 } :=
  (stt_create_pending_update_unguarded demoSessions [] sttStep2 "sess_1"
      "stt_a" { audio_chunk_id := "chunk_1", duration_seconds := none }
      { status := "failed", transcript := none, error := some "oops" } 10 12
      demoSession doneTask (by decide) (by decide) (by decide)).1

/-! ## Claim C5 -/

/-- C5 counterexample: the `done` task stores transcript "hello world"; an
update that does not supply a transcript resets the stored transcript to null
instead of keeping the previous stored value, so `update_stt_task` does not
mirror the notes' partial-update semantics. -/
theorem stt_partial_update_counterexample :
    alist_get sttStep2 "stt_a" = some doneTask ∧
    doneTask.transcript = some "hello world" ∧
    (update_stt_task demoSessions sttStep2 "sess_1" "stt_a"
        { status := "failed", transcript := none, error := some "oops" }
        12).2
      = Except.ok { id := "stt_a", session_id := "sess_1",
                    audio_chunk_id := "chunk_1", duration_seconds := none,
                    status := "failed", transcript := none,
                    error := some "oops",
                    created_at := 10, updated_at := 12 } ∧
    (none : Option String) ≠ some "hello world" := by
  exact ⟨by decide, rfl, rfl, by decide⟩

/-- C5 amended: `update_stt_task` overwrites `status`, `transcript`, and
`error` with exactly the supplied values — an optional field omitted from the
update arrives as null and resets the stored field rather than keeping its
previous value — refreshes `updated_at`, and never changes `id`,
`session_id`, `audio_chunk_id`, `duration_seconds`, or `created_at`. -/
theorem update_stt_task_overwrites (sessions_db : AList Session)
    (tasks : AList STTTask) (sid tid : String) (u : STTTaskUpdate) (now : Nat)
    (sess : Session) (t0 : STTTask)
    (hs : alist_get sessions_db sid = some sess)
    (ht : alist_get tasks tid = some t0) (hown : t0.session_id = sid) :
    isErr (update_stt_task sessions_db tasks sid tid u now).2 = false ∧
    (∀ t2, (update_stt_task sessions_db tasks sid tid u now).2
        = Except.ok t2 →
      t2.id = t0.id ∧ t2.session_id = t0.session_id ∧
      t2.audio_chunk_id = t0.audio_chunk_id ∧
      t2.duration_seconds = t0.duration_seconds ∧
      t2.created_at = t0.created_at ∧
      t2.status = u.status ∧ t2.transcript = u.transcript ∧
      t2.error = u.error ∧ t2.updated_at = now ∧
      (update_stt_task sessions_db tasks sid tid u now).1
        = alist_set tasks tid t2) := by
  simp only [update_stt_task, hs, ht, if_pos hown]
  refine ⟨rfl, ?_⟩
  intro t2 h2
  injection h2 with h2
  subst h2
  exact ⟨rfl, rfl, rfl, rfl, rfl, rfl, rfl, rfl, rfl, rfl⟩

/-- Witness for C5 amended at the `done` task of `sttStep2`. -/
theorem update_stt_task_overwrites_witness :
    isErr (update_stt_task demoSessions sttStep2 "sess_1" "stt_a"
        { status := "failed", transcript := none, error := some "oops" }
        12).2 = false :=
  (update_stt_task_overwrites demoSessions sttStep2 "sess_1" "stt_a"
      { status := "failed", transcript := none, error := some "oops" } 12
      demoSession doneTask (by decide) (by decide) (by decide)).1

/-! ## Claim C6 -/

/-- C6: `update_note` changes only the fields explicitly supplied in the
update (content, speaker, type, tags), leaves every unsupplied field and the
note's `id`, `session_id`, `timestamp`, `telemetry_snapshot`, and
`created_at` unchanged, always refreshes `updated_at` to the update time, and
the updated note lands in the store; when the update happens strictly later
than creation, `updated_at` ends strictly greater than `created_at`. -/
theorem update_note_partial_semantics (sessions_db : AList Session)
    (notes_db : AList Note) (sid nid : String) (u : NoteUpdate) (now : Nat)
    (sess : Session) (n0 : Note)
    (hs : alist_get sessions_db sid = some sess)
    (hn : alist_get notes_db nid = some n0) (hown : n0.session_id = sid) :
    isErr (update_note sessions_db notes_db sid nid u now).2 = false ∧
    (∀ n1, (update_note sessions_db notes_db sid nid u now).2
        = Except.ok n1 →
      n1.id = n0.id ∧ n1.session_id = n0.session_id ∧
      n1.timestamp = n0.timestamp ∧
      n1.telemetry_snapshot = n0.telemetry_snapshot ∧
      n1.created_at = n0.created_at ∧
      n1.content = (match u.content with | some c => c | none => n0.content) ∧
      n1.speaker
        = (match u.speaker with | some sp => some sp | none => n0.speaker) ∧
      n1.type = (match u.type with | some t => t | none => n0.type) ∧
      n1.tags = (match u.tags with | some tg => tg | none => n0.tags) ∧
      n1.updated_at = now ∧
      (n0.created_at < now → n1.created_at < n1.updated_at) ∧
      (update_note sessions_db notes_db sid nid u now).1
        = alist_set notes_db nid n1) := by
  simp only [update_note, hs, hn, if_pos hown]
  refine ⟨rfl, ?_⟩
  intro n1 h1
  injection h1 with h1
  subst h1
  obtain ⟨f1, f2, f3, f4, f5, f6, f7, f8, f9, f10⟩ :=
    note_apply_update_fields n0 u now
  refine ⟨f1, f2, f3, f4, f5, f7, f8, f9, f10, f6, ?_, rfl⟩
  intro hlt
  rw [f5, f6]
  exact hlt

/-- Witness for C6: the operator edit of the scenario in the spec, applied to
`demoNote` at a time strictly later than its creation. -/
theorem update_note_partial_semantics_witness :
    isErr (update_note demoSessions demoNotes "sess_1" "note_a"
        { content := some "motor start confirmed", speaker := none,
          type := none, tags := none } 9).2 = false :=
  (update_note_partial_semantics demoSessions demoNotes "sess_1" "note_a"
      { content := some "motor start confirmed", speaker := none,
        type := none, tags := none } 9 demoSession demoNote
      (by decide) (by decide) (by decide)).1

/-! ## Claim C10 -/

/-- C10: cross-session isolation at the public interface — for a record id
that exists in the store but whose owning `session_id` differs from the
session id of the call, `get_note`, `update_note`, `delete_note`,
`get_stt_task`, and `update_stt_task` all return not_found and leave their
stores unchanged. -/
theorem cross_session_isolation (sessions_db : AList Session)
    (notes_db : AList Note) (stt_tasks_db : AList STTTask)
    (sid nid tid : String) (nu : NoteUpdate) (tu : STTTaskUpdate) (now : Nat)
    (n0 : Note) (t0 : STTTask)
    (hn : alist_get notes_db nid = some n0) (hnown : n0.session_id ≠ sid)
    (ht : alist_get stt_tasks_db tid = some t0)
    (htown : t0.session_id ≠ sid) :
    isErr (get_note sessions_db notes_db sid nid) = true ∧
    isErr (update_note sessions_db notes_db sid nid nu now).2 = true ∧
    (update_note sessions_db notes_db sid nid nu now).1 = notes_db ∧
    isErr (delete_note sessions_db notes_db sid nid).2 = true ∧
    (delete_note sessions_db notes_db sid nid).1 = notes_db ∧
    isErr (get_stt_task sessions_db stt_tasks_db sid tid) = true ∧
    isErr (update_stt_task sessions_db stt_tasks_db sid tid tu now).2
      = true ∧
    (update_stt_task sessions_db stt_tasks_db sid tid tu now).1
      = stt_tasks_db := by
  cases hg : alist_get sessions_db sid with
  | none =>
      refine ⟨?_, ?_, ?_, ?_, ?_, ?_, ?_, ?_⟩ <;>
        simp only [get_note, update_note, delete_note, get_stt_task,
          update_stt_task, hg, isErr]
  | some sess =>
      refine ⟨?_, ?_, ?_, ?_, ?_, ?_, ?_, ?_⟩ <;>
        simp only [get_note, update_note, delete_note, get_stt_task,
          update_stt_task, hg, hn, ht, if_neg hnown, if_neg htown, isErr]

/-- Witness for C10: records owned by `sess_2`, accessed through `sess_1`. -/
theorem cross_session_isolation_witness :
    isErr (get_note demoSessions foreignNotes "sess_1" "note_b") = true :=
  (cross_session_isolation demoSessions foreignNotes foreignTasks "sess_1"
      "note_b" "stt_b"
      { content := none, speaker := none, type := none, tags := none }
      { status := "done", transcript := some "x", error := none } 20
      foreignNote foreignTask
      (by decide) (by decide) (by decide) (by decide)).1

/-! ## Claim C7 -/

/-- C7 counterexample: with a supplied empty-string speaker filter, the
source applies no speaker filtering (Python truthiness: `if speaker:` is
false for `""`), so a note whose speaker is "alice" — which does not satisfy
speaker equality with the supplied "" — is returned anyway. -/
theorem list_notes_empty_speaker_counterexample :
    list_notes demoSessions demoNotes "sess_1" (some "") none none none
      = Except.ok [demoNote] ∧
    demoNote.speaker ≠ some "" := by
  exact ⟨rfl, by decide⟩

/-- C7 amended: `list_notes` returns exactly the session's notes that satisfy
all supplied filters conjunctively — speaker equality (applied only when the
supplied speaker is non-empty, since the source treats an empty-string
speaker filter as absent), type equality, and the inclusive `[from, to]`
timestamp bounds — sorted ascending by event timestamp; in particular a note
outside a supplied bound is never returned. -/
theorem list_notes_filters_and_order (sessions_db : AList Session)
    (notes_db : AList Note) (sid : String) (speaker : Option String)
    (ty : Option NoteType) (from_time to_time : Option Nat) (sess : Session)
    (ns : List Note)
    (hs : alist_get sessions_db sid = some sess)
    (hns : list_notes sessions_db notes_db sid speaker ty from_time to_time
      = Except.ok ns) :
    (∀ n, n ∈ ns ↔
      (n ∈ notes_db.map Prod.snd ∧ n.session_id = sid ∧
       (∀ s, speaker = some s → s ≠ "" → n.speaker = some s) ∧
       (∀ t, ty = some t → n.type = t) ∧
       (∀ ft, from_time = some ft → ft ≤ n.timestamp) ∧
       (∀ tt, to_time = some tt → n.timestamp ≤ tt))) ∧
    ns.Pairwise (fun a b => a.timestamp ≤ b.timestamp) := by
  simp only [list_notes, hs] at hns
  injection hns with hns
  subst hns
  refine ⟨?_, pairwise_sortAsc _ _⟩
  intro n
  rw [mem_sortAsc, mem_notes_filter_to, mem_notes_filter_from,
    mem_notes_filter_type, mem_notes_filter_speaker]
  simp only [get_notes_by_session, List.mem_filter, decide_eq_true_eq]
  tauto

/-- Witness for C7 amended: the unfiltered listing of `demoNotes` is sorted
ascending by timestamp. -/
theorem list_notes_filters_and_order_witness :
    List.Pairwise (fun a b => a.timestamp ≤ b.timestamp) [demoNote] :=
  (list_notes_filters_and_order demoSessions demoNotes "sess_1" none none
      none none demoSession [demoNote] (by decide) (by rfl)).2

end Astra
